import Mathlib

/-!
Verification of the MTU source-election, readiness-aggregation and node-agent
reconciliation logic of the harvester network controller.

The Go source is shallowly embedded:
  * `pkg/utils/mtu.go` becomes pure functions on `Int` (Go `int`).
  * The management-plane handler (`ensureClusterNetwork`, `OnVlanConfigRemove`,
    `setClusterNetworkReady`, `setClusterNetworkUnready`) becomes pure functions
    from the relevant cache contents to an explicit write-effect value; object
    store writes are assumed to succeed, and store lookups are passed in as
    `Option`-valued (or function-valued) arguments, `none` meaning NotFound.
  * The node-agent handler (`MatchNode`, `OnChange`, `deleteStatus`,
    `removeNodeLabel`, `statusName`) is embedded the same way; the device
    setup/teardown calls are recorded as explicit `DeviceAction` values.
  * Go maps with string keys are association lists with Go-map read semantics
    (a missing key reads as the empty string).
-/

/-! ## Data model -/

/-- Go map read: a missing key yields the zero value `""`. -/
def lookupGo (m : List (String × String)) (k : String) : String :=
  match m.find? (fun p => p.1 == k) with
  | some p => p.2
  | none => ""

/-- Go map read through a possibly-nil map. -/
def lookupGoOpt (m : Option (List (String × String))) (k : String) : String :=
  match m with
  | none => ""
  | some l => lookupGo l k

/-- Go `delete(m, k)`. -/
def eraseKey (m : List (String × String)) (k : String) : List (String × String) :=
  m.filter (fun p => !(p.1 == k))

/-- Go map assignment `m[k] = v`. -/
def setAnn (m : List (String × String)) (k v : String) : List (String × String) :=
  (k, v) :: eraseKey m k

/-- `networkv1.LinkAttrs` (the field the core reads). -/
structure LinkAttrs where
  MTU : Int
  deriving DecidableEq

/-- `networkv1.Uplink` (the field the core reads). -/
structure Uplink where
  linkAttrs : Option LinkAttrs
  deriving DecidableEq

/-- `networkv1.VlanConfigSpec` (the fields the core reads). -/
structure VlanConfigSpec where
  clusterNetwork : String
  uplink : Uplink
  deriving DecidableEq

/-- `networkv1.VlanConfig`: name, annotations, labels, deletion marker, spec.
`deletionTimestamp = true` models a non-nil `DeletionTimestamp`. -/
structure VlanConfig where
  name : String
  annotations : List (String × String)
  labels : List (String × String)
  deletionTimestamp : Bool
  spec : VlanConfigSpec
  deriving DecidableEq

/-- `networkv1.ClusterNetwork`. `ready` models the boolean-style Ready
condition of its status: `some true` is condition True, `some false` is
condition False, `none` is absent/unknown (so `IsTrue` is `== some true`
and `IsFalse` is `== some false`). Modelled from the spec for the condition
helpers `Ready.IsTrue/IsFalse/True/False`, whose source is not under src/. -/
structure ClusterNetwork where
  name : String
  annotations : List (String × String)
  ready : Option Bool
  deriving DecidableEq

/-- `networkv1.VlanStatusStatus` (the fields the core reads). -/
structure VlanStatusStatus where
  clusterNetwork : String
  vlanConfig : String
  node : String
  deriving DecidableEq

/-- `networkv1.VlanStatus`: `ready`/`message` model its Ready condition with
message, as set by `Ready.SetStatusBool` and `Ready.Message`. -/
structure VlanStatus where
  name : String
  labels : List (String × String)
  deletionTimestamp : Bool
  ready : Option Bool
  message : String
  status : VlanStatusStatus
  deriving DecidableEq

/-- `corev1.Node` (the field the core reads). The label map can be nil
(`none`), which `removeNodeLabel` distinguishes from an empty map. -/
structure Node where
  labels : Option (List (String × String))
  deriving DecidableEq

/-- Modelled from the spec: annotation/label key constants (their defining
file is not under src/; only their distinctness and stability matter). -/
def GroupName : String := "network.harvesterhci.io"

/-- Modelled from the spec: the `uplink-mtu` cluster-network annotation key. -/
def KeyUplinkMTU : String := GroupName ++ "/uplink-mtu"

/-- Modelled from the spec: the `mtu-source` cluster-network annotation key. -/
def KeyMTUSourceVlanConfig : String := GroupName ++ "/mtu-source-vlanconfig"

/-- Modelled from the spec: the matched-node annotation key on a VlanConfig. -/
def KeyMatchedNodes : String := GroupName ++ "/matched-nodes"

/-- Modelled from the spec: the cluster-network label key on status objects. -/
def KeyClusterNetworkLabel : String := GroupName ++ "/clusternetwork"

/-- Modelled from the spec: the active-configuration pointer label key. -/
def KeyVlanConfigLabel : String := GroupName ++ "/vlanconfig"

/-- Modelled from the spec: the node label key recording the node name. -/
def KeyNodeLabel : String := GroupName ++ "/node"

/-- Modelled from the spec: `utils.ValueTrue`. -/
def ValueTrue : String := "true"

/-! ## pkg/utils/mtu.go -/

/-- Modelled from the spec: `utils.DefaultMTU` (constants file not under
src/; the spec and the tests fix it to 1500). -/
def DefaultMTU : Int := 1500

/-- Modelled from the spec: `utils.MinMTU` (576, fixed by the spec/tests). -/
def MinMTU : Int := 576

/-- Modelled from the spec: `utils.MaxMTU` (9000, fixed by the spec/tests). -/
def MaxMTU : Int := 9000

/-- `utils.IsValidMTU`. -/
def IsValidMTU (MTU : Int) : Bool :=
  MTU == 0 || (MTU >= MinMTU && MTU <= MaxMTU)

/-- `utils.IsDefaultMTU`. -/
def IsDefaultMTU (MTU : Int) : Bool :=
  MTU == DefaultMTU

/-- `utils.AreEqualMTUs`. -/
def AreEqualMTUs (MTU1 MTU2 : Int) : Bool :=
  (MTU1 == MTU2) || (MTU1 == 0 && MTU2 == DefaultMTU) || (MTU1 == DefaultMTU && MTU2 == 0)

/-- All-decimal-digit run to a number; `none` on an empty or non-digit run. -/
def digitsToNatAux : List Char → Nat → Option Nat
  | [], acc => some acc
  | c :: rest, acc =>
    if c.isDigit then digitsToNatAux rest (acc * 10 + (c.toNat - 48)) else none

/-- Digit-run parser used by `atoi` (empty run is an error). -/
def digitsToNat (l : List Char) : Option Nat :=
  match l with
  | [] => none
  | _ => digitsToNatAux l 0

/-- Model of Go `strconv.Atoi` (external library): optional sign followed by
a non-empty digit run; anything else is an error. -/
def atoi (s : String) : Option Int :=
  match s.toList with
  | [] => none
  | c :: rest =>
    if c == '-' then (digitsToNat rest).map (fun n => -(n : Int))
    else if c == '+' then (digitsToNat rest).map (fun n => (n : Int))
    else (digitsToNat (c :: rest)).map (fun n => (n : Int))

/-- `utils.GetMTUFromString`. -/
def GetMTUFromString (s : String) : Except String Int :=
  match atoi s with
  | none => .error ("value " ++ s ++ " is not an integer")
  | some MTU =>
    if !(IsValidMTU MTU) then .error ("value " ++ s ++ " is not in range")
    else .ok MTU

/-- `utils.GetMTUFromVlanConfig` (nil config or nil LinkAttrs yield 0). -/
def GetMTUFromVlanConfig (vc : Option VlanConfig) : Int :=
  match vc with
  | none => 0
  | some vc =>
    match vc.spec.uplink.linkAttrs with
    | none => 0
    | some la => la.MTU

/-- `utils.MTUDefaultTo`. -/
def MTUDefaultTo (MTU : Int) : Int :=
  if MTU == 0 then DefaultMTU else MTU

/-! ## Management-plane handler: ensureClusterNetwork -/

/-- The write `ensureClusterNetwork` performs on the cluster network object
(store writes are modelled as succeeding). -/
inductive EnsureResult
  | noWrite
  | update (cn : ClusterNetwork)
  | create (cn : ClusterNetwork)
  deriving DecidableEq

/-- The effective MTU computed at the top of `ensureClusterNetwork`:
`MTU := DefaultMTU; if IsValidMTU(vcMtu) && vcMtu != 0 { MTU = vcMtu }`. -/
def effectiveMTU (vc : VlanConfig) : Int :=
  let vcMtu := GetMTUFromVlanConfig (some vc)
  if IsValidMTU vcMtu && !(vcMtu == 0) then vcMtu else DefaultMTU

/-- `Handler.ensureClusterNetwork`: `curCn` is the result of
`cnCache.Get(vc.Spec.ClusterNetwork)` (`none` = NotFound). -/
def ensureClusterNetwork (curCn : Option ClusterNetwork) (vc : VlanConfig) : EnsureResult :=
  let targetMTU := toString (effectiveMTU vc)
  match curCn with
  | some cn =>
    let curMTU := lookupGo cn.annotations KeyUplinkMTU
    if curMTU == targetMTU then .noWrite
    else
      let newAnn := setAnn (setAnn cn.annotations KeyUplinkMTU targetMTU) KeyMTUSourceVlanConfig vc.name
      .update { cn with annotations := newAnn }
  | none =>
    .create { name := vc.spec.clusterNetwork,
              annotations := [(KeyUplinkMTU, targetMTU), (KeyMTUSourceVlanConfig, vc.name)],
              ready := none }

/-- `Handler.EnsureClusterNetwork` (the registered OnChange handler): skips
nil configs and configs carrying a deletion marker. -/
def EnsureClusterNetwork (vc : Option VlanConfig)
    (cnGet : String → Option ClusterNetwork) : EnsureResult :=
  match vc with
  | none => .noWrite
  | some vc =>
    if vc.deletionTimestamp then .noWrite
    else ensureClusterNetwork (cnGet vc.spec.clusterNetwork) vc

/-- The comparison C1 asserts, written from the spec's words: the current
`uplink-mtu` annotation equals the object's effective (defaulted) MTU under
the default-aware equality `AreEqualMTUs` of 4.1 (an unparsable annotation
counts as not equal). This is the refinement-side definition to be compared
against the source's raw string comparison. -/
def specDefaultAwareMatch (cn : ClusterNetwork) (vc : VlanConfig) : Bool :=
  match GetMTUFromString (lookupGo cn.annotations KeyUplinkMTU) with
  | .ok cur => AreEqualMTUs cur (effectiveMTU vc)
  | .error _ => false

/-! ## Management-plane handler: OnVlanConfigRemove -/

/-- The write `OnVlanConfigRemove` performs on the cluster network object. -/
inductive RemoveResult
  | noop
  | update (cn : ClusterNetwork)
  deriving DecidableEq

/-- `vcCache.List` with the cluster-network label selector: the k8s label
selector keeps exactly the objects whose label equals the value. -/
def listVlanConfigsByCN (vcs : List VlanConfig) (cnName : String) : List VlanConfig :=
  vcs.filter (fun i => lookupGo i.labels KeyClusterNetworkLabel == cnName)

/-- The candidate-search loop of `OnVlanConfigRemove`: skip the removed
object and objects marked for deletion, skip invalid MTUs, remember the
first zero-MTU candidate as a fallback, stop at the first nonzero-MTU
candidate. The second argument is the `vcCandidateZero` accumulator. -/
def findCandidate (vcName : String) : List VlanConfig → Option VlanConfig → Option VlanConfig
  | [], zeroCand => zeroCand
  | item :: rest, zeroCand =>
    if item.name == vcName || item.deletionTimestamp then
      findCandidate vcName rest zeroCand
    else
      let mtu := GetMTUFromVlanConfig (some item)
      if !(IsValidMTU mtu) then findCandidate vcName rest zeroCand
      else if mtu == 0 then
        findCandidate vcName rest
          (match zeroCand with
           | none => some item
           | some z => some z)
      else some item

/-- `Handler.OnVlanConfigRemove`: `cnGet` is `cnCache.Get` (`none` =
NotFound, which the code swallows), `vcs` is the content of the VlanConfig
cache (the handler lists it through the cluster-network label selector). -/
def OnVlanConfigRemove (vc : Option VlanConfig)
    (cnGet : String → Option ClusterNetwork) (vcs : List VlanConfig) : RemoveResult :=
  match vc with
  | none => .noop
  | some vc =>
    match cnGet vc.spec.clusterNetwork with
    | none => .noop
    | some cn =>
      if !(lookupGo cn.annotations KeyMTUSourceVlanConfig == vc.name) then .noop
      else
        match findCandidate vc.name (listVlanConfigsByCN vcs vc.spec.clusterNetwork) none with
        | some cand =>
          let mtu := MTUDefaultTo (GetMTUFromVlanConfig (some cand))
          let newAnn := setAnn (setAnn cn.annotations KeyUplinkMTU (toString mtu)) KeyMTUSourceVlanConfig cand.name
          .update { cn with annotations := newAnn }
        | none =>
          let newAnn := eraseKey (eraseKey cn.annotations KeyMTUSourceVlanConfig) KeyUplinkMTU
          .update { cn with annotations := newAnn }

/-- The candidate filter of the re-election: not the removed object and not
marked for deletion. -/
def keepPred (vcName : String) (i : VlanConfig) : Bool :=
  !(i.name == vcName || i.deletionTimestamp)

/-- Nonzero valid MTU predicate of the re-election. -/
def nzPred (i : VlanConfig) : Bool :=
  IsValidMTU (GetMTUFromVlanConfig (some i)) && !(GetMTUFromVlanConfig (some i) == 0)

/-- Zero MTU predicate of the re-election. -/
def zPred (i : VlanConfig) : Bool :=
  GetMTUFromVlanConfig (some i) == 0

/-- The selection policy exactly as the spec words it for C2: among the
remaining objects (same cluster network list, not the removed one, not
marked for deletion), the first with a nonzero valid MTU; only if none
exists, the first with a zero MTU. -/
def specReplacementChoice (vcName : String) (l : List VlanConfig) : Option VlanConfig :=
  let remaining := l.filter (keepPred vcName)
  match remaining.find? nzPred with
  | some c => some c
  | none => remaining.find? zPred

/-! ## Management-plane handler: readiness aggregation -/

/-- The write the readiness aggregators perform on the cluster network. -/
inductive CnWrite
  | noop
  | write (cn : ClusterNetwork)
  deriving DecidableEq

/-- `vsCache.List` with the cluster-network label selector. -/
def listVlanStatusesByCN (vss : List VlanStatus) (cnName : String) : List VlanStatus :=
  vss.filter (fun s => lookupGo s.labels KeyClusterNetworkLabel == cnName)

/-- `Handler.setClusterNetworkReady`: `cnGet` is `cnCache.Get` (`none` is a
Get error, which the code returns). -/
def setClusterNetworkReady (vs : VlanStatus)
    (cnGet : String → Option ClusterNetwork) : Except String CnWrite :=
  match cnGet vs.status.clusterNetwork with
  | none => .error ("cluster network " ++ vs.status.clusterNetwork ++ " not found")
  | some cn =>
    if cn.ready == some true then .ok .noop
    else .ok (.write { cn with ready := some true })

/-- `Handler.SetClusterNetworkReady` (the registered OnChange handler):
skips nil statuses and statuses carrying a deletion marker, wraps errors. -/
def SetClusterNetworkReady (vs : Option VlanStatus)
    (cnGet : String → Option ClusterNetwork) : Except String CnWrite :=
  match vs with
  | none => .ok .noop
  | some vs =>
    if vs.deletionTimestamp then .ok .noop
    else
      match setClusterNetworkReady vs cnGet with
      | .error e => .error ("set cluster network of vs " ++ vs.name ++ " ready failed, error: " ++ e)
      | .ok r => .ok r

/-- The tail of `Handler.setClusterNetworkUnready` after the cardinality
checks: fetch the cluster network and set Ready to false unless it already
is false. -/
def setClusterNetworkUnreadyWrite (vs : VlanStatus)
    (cnGet : String → Option ClusterNetwork) : Except String CnWrite :=
  match cnGet vs.status.clusterNetwork with
  | none => .error ("cluster network " ++ vs.status.clusterNetwork ++ " not found")
  | some cn =>
    if cn.ready == some false then .ok .noop
    else .ok (.write { cn with ready := some false })

/-- `Handler.setClusterNetworkUnready`: `vss` is the content of the
VlanStatus cache, listed through the cluster-network label selector. -/
def setClusterNetworkUnready (vs : VlanStatus) (vss : List VlanStatus)
    (cnGet : String → Option ClusterNetwork) : Except String CnWrite :=
  let vsList := listVlanStatusesByCN vss vs.status.clusterNetwork
  if vsList.length > 1 then .ok .noop
  else
    match vsList with
    | [only] =>
      if !(only.name == vs.name) then
        .error ("the only remain vlanstatus " ++ only.name ++ " is not " ++ vs.name)
      else setClusterNetworkUnreadyWrite vs cnGet
    | _ => setClusterNetworkUnreadyWrite vs cnGet

/-- `Handler.SetClusterNetworkUnready` (the registered OnRemove handler):
skips nil statuses, wraps errors. -/
def SetClusterNetworkUnready (vs : Option VlanStatus) (vss : List VlanStatus)
    (cnGet : String → Option ClusterNetwork) : Except String CnWrite :=
  match vs with
  | none => .ok .noop
  | some vs =>
    match setClusterNetworkUnready vs vss cnGet with
    | .error e =>
      .error ("set cluster network unready before deleting vs " ++ vs.name ++ " failed, error: " ++ e)
    | .ok r => .ok r

/-! ## Node-agent handler: ownership resolution and change events -/

/-- The agent handler fields the embedded functions read: the local node
name and `nodeCache.Get` (errors modelled as `Except`). -/
structure AgentHandler where
  nodeName : String
  nodeGet : String → Except String Node

/-- The loop body of `Handler.MatchNode` over the decoded matched-node
list: at the local node name, fetch the node object and answer with the
owner-pointer label; a Get error is returned as an error. -/
def matchNodeLoop (h : AgentHandler) : List String → Except String (Bool × String)
  | [] => .ok (false, "")
  | n :: rest =>
    if n == h.nodeName then
      match h.nodeGet n with
      | .error e => .error e
      | .ok node => .ok (true, lookupGoOpt node.labels KeyVlanConfigLabel)
    else matchNodeLoop h rest

/-- `Handler.MatchNode`. `unmarshal` models `encoding/json.Unmarshal` into
`[]string` (external library; `none` = decode error, swallowed). An absent
or empty matched-node annotation and a decode failure all answer
`(false, "")` with no error. -/
def MatchNode (unmarshal : String → Option (List String))
    (h : AgentHandler) (vc : VlanConfig) : Except String (Bool × String) :=
  let ann := lookupGo vc.annotations KeyMatchedNodes
  if ann == "" then .ok (false, "")
  else
    match unmarshal ann with
    | none => .ok (false, "")
    | some matchedNodes => matchNodeLoop h matchedNodes

/-- A device-touching call made by the change/remove handlers. -/
inductive DeviceAction
  | setup (vcName : String)
  | teardown (vcName : String)
  deriving DecidableEq

/-- The device-lifecycle subroutines `setupVLAN`/`removeVLAN` as external
effects: the environment decides whether each call fails (`some` = error
message). -/
structure AgentEffects where
  setupVLAN : VlanConfig → Option String
  removeVLAN : VlanConfig → Option String

/-- `Handler.OnChange`: result is the returned error (if any) paired with
the device-touching calls made. Nil configs and configs marked for deletion
are skipped; a non-matching node is torn down; a node owned by another
VlanConfig is left alone with no error; otherwise the VLAN is set up. -/
def OnChange (unmarshal : String → Option (List String)) (h : AgentHandler)
    (eff : AgentEffects) (vc : Option VlanConfig) : Except String Unit × List DeviceAction :=
  match vc with
  | none => (.ok (), [])
  | some vc =>
    if vc.deletionTimestamp then (.ok (), [])
    else
      match MatchNode unmarshal h vc with
      | .error e => (.error e, [])
      | .ok (ok, v) =>
        if !ok then
          match eff.removeVLAN vc with
          | some e => (.error e, [.teardown vc.name])
          | none => (.ok (), [.teardown vc.name])
        else if !(v == "") && !(v == vc.name) then (.ok (), [])
        else
          match eff.setupVLAN vc with
          | some e => (.error e, [.setup vc.name])
          | none => (.ok (), [.setup vc.name])

/-! ## Node-agent handler: status removal and node labels -/

/-- The write `deleteStatus` performs on the status object. -/
inductive StatusEffect
  | noop
  | updateVS (vs : VlanStatus)
  | deleteVS (name : String)
  deriving DecidableEq

/-- `Handler.deleteStatus`: `vsGet` is the result of looking up the derived
status name in the cache (`none` = NotFound, swallowed). A nil teardown
error deletes the status object; a non-nil one updates it in place to
Unready carrying the error message. -/
def deleteStatus (vsGet : Option VlanStatus) (teardownErr : Option String) : StatusEffect :=
  match vsGet with
  | none => .noop
  | some vs =>
    match teardownErr with
    | some msg => .updateVS { vs with ready := some false, message := msg }
    | none => .deleteVS vs.name

/-- `Handler.removeNodeLabel`: result is `some` of the updated node when a
write occurs, `none` when no write occurs. The Go code guards on a non-nil
label map and writes whenever the per-cluster-network availability label is
`"true"` or the pointer label equals this VlanConfig's name, deleting both
labels. -/
def removeNodeLabel (node : Node) (vc : VlanConfig) : Option Node :=
  let key := GroupName ++ "/" ++ vc.spec.clusterNetwork
  match node.labels with
  | none => none
  | some lbls =>
    if lookupGo lbls key == ValueTrue || lookupGo lbls KeyVlanConfigLabel == vc.name then
      some { node with labels := some (eraseKey (eraseKey lbls key) KeyVlanConfigLabel) }
    else none

/-! ## Node-agent handler: status-name derivation -/

/-- A Go byte. -/
abbrev GoByte := Fin 256

/-- The byte of the ASCII dash. -/
def dashByte : GoByte := (45 : Fin 256)

/-- The reflected CRC-32 (IEEE) polynomial, as used by Go `hash/crc32`. -/
def crc32Poly : Nat := 0xEDB88320

/-- One bit step of the reflected CRC-32 computation. -/
def crc32Step (c : Nat) : Nat :=
  if c &&& 1 == 1 then (c >>> 1) ^^^ crc32Poly else c >>> 1

/-- Fold one byte into the running CRC (eight bit steps). -/
def crc32Byte (crc : Nat) (b : GoByte) : Nat :=
  crc32Step (crc32Step (crc32Step (crc32Step
    (crc32Step (crc32Step (crc32Step (crc32Step (crc ^^^ b.val))))))))

/-- Model of Go `crc32.ChecksumIEEE` (external library): reflected CRC-32
with initial value and final xor `0xFFFFFFFF`. -/
def crc32ChecksumIEEE (data : List GoByte) : Nat :=
  (data.foldl crc32Byte 0xFFFFFFFF) ^^^ 0xFFFFFFFF

/-- One lowercase hex digit (of the argument taken mod 16), as its ASCII
byte: `0`..`9` then `a`..`f`. -/
def hexDigit (n : Nat) : GoByte :=
  if h : n % 16 < 10 then ⟨48 + n % 16, by omega⟩ else ⟨87 + n % 16, by omega⟩

/-- Model of `fmt.Sprintf("%08x", n)` for `n < 2^32` (which `crc32_lt`
below shows always holds for the digest): exactly eight hex digits. -/
def hex8 (n : Nat) : List GoByte :=
  [hexDigit (n >>> 28), hexDigit (n >>> 24), hexDigit (n >>> 20), hexDigit (n >>> 16),
   hexDigit (n >>> 12), hexDigit (n >>> 8), hexDigit (n >>> 4), hexDigit n]

/-- `Handler.statusName`, at the byte level Go strings work at:
`<vc name>-<node name>` truncated so the total length stays within 63, then
a dash and the 8-hex-digit CRC-32 of the untruncated `<vc name>-<node name>`. -/
def statusName (vcName nodeName : List GoByte) : List GoByte :=
  let name := vcName ++ dashByte :: nodeName
  let digest := crc32ChecksumIEEE name
  let suffix := hex8 digest
  let maxLengthOfName := 63 - 1 - suffix.length
  let name2 := if name.length > maxLengthOfName then name.take maxLengthOfName else name
  name2 ++ dashByte :: suffix

/-! ## Theorems -/

/-- Concrete inputs for C1: a cluster network whose `uplink-mtu` annotation
reads "0" and a VlanConfig with no declared MTU (effective MTU 1500). -/
def c1cn : ClusterNetwork :=
  { name := "mgmt", annotations := [(KeyUplinkMTU, "0")], ready := none }

/-- Concrete VlanConfig for C1. -/
def c1vc : VlanConfig :=
  { name := "vc1", annotations := [], labels := [], deletionTimestamp := false,
    spec := { clusterNetwork := "mgmt", uplink := { linkAttrs := none } } }

/-- C1 counterexample: under the default-aware equality `AreEqualMTUs` the
current annotation "0" and the effective MTU 1500 are equal, so the claim
says no write occurs; but the code compares the raw strings "0" and "1500"
and writes, so the claimed if-and-only-if is false at this input. -/
theorem c1_raw_string_comparison_cex :
    specDefaultAwareMatch c1cn c1vc = true ∧
    EnsureClusterNetwork (some c1vc) (fun _ => some c1cn) ≠ EnsureResult.noWrite := by
  constructor
  · decide
  · decide

/-- C1 (amended): on a change event for a non-deleted VlanConfig whose
cluster network exists, no write occurs if and only if the current
`uplink-mtu` annotation equals, as a raw string, the decimal encoding of
the object's effective (defaulted) MTU; when they differ, both the
`uplink-mtu` and `mtu-source` annotations are updated to reflect this
object. -/
theorem c1_mtu_write_guard_amended (vc : VlanConfig) (cnGet : String → Option ClusterNetwork)
    (cn : ClusterNetwork) (hts : vc.deletionTimestamp = false)
    (hcn : cnGet vc.spec.clusterNetwork = some cn) :
    (EnsureClusterNetwork (some vc) cnGet = EnsureResult.noWrite ↔
      lookupGo cn.annotations KeyUplinkMTU = toString (effectiveMTU vc))
    ∧ (lookupGo cn.annotations KeyUplinkMTU ≠ toString (effectiveMTU vc) →
        EnsureClusterNetwork (some vc) cnGet =
          EnsureResult.update { cn with annotations := setAnn (setAnn cn.annotations KeyUplinkMTU (toString (effectiveMTU vc))) KeyMTUSourceVlanConfig vc.name }) := by
  have hmain : EnsureClusterNetwork (some vc) cnGet = ensureClusterNetwork (some cn) vc := by
    simp [EnsureClusterNetwork, hts, hcn]
  by_cases hcmp : lookupGo cn.annotations KeyUplinkMTU = toString (effectiveMTU vc)
  · refine ⟨⟨fun _ => hcmp, fun _ => ?_⟩, fun hne => absurd hcmp hne⟩
    rw [hmain]
    simp [ensureClusterNetwork, hcmp]
  · refine ⟨⟨fun h => ?_, fun h => absurd h hcmp⟩, fun _ => ?_⟩
    · rw [hmain] at h
      simp [ensureClusterNetwork, hcmp] at h
    · rw [hmain]
      simp [ensureClusterNetwork, hcmp]

/-- C1 witness: at the concrete counterexample input the code updates both
annotations, with `uplink-mtu` set to "1500" and `mtu-source` to "vc1". -/
theorem c1_mtu_write_guard_witness :
    EnsureClusterNetwork (some c1vc) (fun _ => some c1cn) =
      EnsureResult.update { c1cn with annotations := setAnn (setAnn c1cn.annotations KeyUplinkMTU "1500") KeyMTUSourceVlanConfig "vc1" } := by
  have h := (c1_mtu_write_guard_amended c1vc (fun _ => some c1cn) c1cn rfl rfl).2 (by decide)
  exact h.trans (by decide)


/-- An invalid MTU is in particular nonzero (0 is always valid). -/
lemma zPred_of_invalid (i : VlanConfig)
    (h : IsValidMTU (GetMTUFromVlanConfig (some i)) = false) : zPred i = false := by
  cases h0 : (GetMTUFromVlanConfig (some i) == 0) with
  | false => simp [zPred, h0]
  | true =>
    have : IsValidMTU (GetMTUFromVlanConfig (some i)) = true := by
      simp [IsValidMTU, h0]
    rw [this] at h
    cases h

/-- The candidate-search loop computes the spec's selection policy: first
nonzero-valid candidate, then the accumulator, then the first zero
candidate. -/
lemma findCandidate_general (vcName : String) (l : List VlanConfig) :
    ∀ zc : Option VlanConfig,
      findCandidate vcName l zc =
        (match (l.filter (keepPred vcName)).find? nzPred with
         | some c => some c
         | none =>
           match zc with
           | some z => some z
           | none => (l.filter (keepPred vcName)).find? zPred) := by
  induction l with
  | nil =>
    intro zc
    cases zc <;> simp [findCandidate]
  | cons item rest ih =>
    intro zc
    cases hc : (item.name == vcName || item.deletionTimestamp) with
    | true =>
      -- skipped by the loop and dropped by the filter
      have hk : keepPred vcName item = false := by
        simp [keepPred, hc]
      rw [List.filter_cons_of_neg (by simp [hk])]
      have hstep : findCandidate vcName (item :: rest) zc = findCandidate vcName rest zc := by
        simp only [findCandidate, hc]
        simp
      rw [hstep]
      exact ih zc
    | false =>
      have hk : keepPred vcName item = true := by
        simp [keepPred, hc]
      rw [List.filter_cons_of_pos hk]
      cases hv : IsValidMTU (GetMTUFromVlanConfig (some item)) with
      | false =>
        -- invalid MTU: skipped by the loop, satisfies neither predicate
        have hnz : nzPred item = false := by
          simp [nzPred, hv]
        have hz : zPred item = false := zPred_of_invalid item hv
        have hstep : findCandidate vcName (item :: rest) zc = findCandidate vcName rest zc := by
          simp only [findCandidate, hc, hv]
          simp
        rw [hstep, List.find?_cons_of_neg _ (by simp [hnz]),
          List.find?_cons_of_neg _ (by simp [hz])]
        exact ih zc
      | true =>
        cases h0 : (GetMTUFromVlanConfig (some item) == 0) with
        | false =>
          -- first nonzero valid candidate: the loop stops here, as does find?
          have hnz : nzPred item = true := by
            simp [nzPred, hv, h0]
          have hstep : findCandidate vcName (item :: rest) zc = some item := by
            simp only [findCandidate, hc, hv]
            simp [h0]
          rw [hstep, List.find?_cons_of_pos _ hnz]
        | true =>
          -- zero MTU: remembered as a fallback if the accumulator is empty
          have hnz : nzPred item = false := by
            simp [nzPred, h0]
          have hz : zPred item = true := by
            simp [zPred, h0]
          have hstep : findCandidate vcName (item :: rest) zc =
              findCandidate vcName rest
                (match zc with
                 | none => some item
                 | some z => some z) := by
            simp only [findCandidate, hc, hv]
            simp [h0]
          rw [hstep, ih, List.find?_cons_of_neg _ (by simp [hnz]),
            List.find?_cons_of_pos _ hz]
          cases hfind : (List.filter (keepPred vcName) rest).find? nzPred <;> cases zc <;> simp

/-- Started with an empty accumulator, the candidate loop is exactly the
spec's selection policy. -/
lemma findCandidate_none (vcName : String) (l : List VlanConfig) :
    findCandidate vcName l none = specReplacementChoice vcName l := by
  rw [findCandidate_general]
  cases hfind : (l.filter (keepPred vcName)).find? nzPred <;>
    simp [specReplacementChoice, hfind]

/-- C2: on removal of the VlanConfig recorded as `mtu-source`, the
re-election considers only the listed VlanConfigs of the same cluster
network that are not the removed one and not marked for deletion, picks the
first with a nonzero valid MTU and only otherwise the first with a zero
MTU (`specReplacementChoice`); a found replacement rewrites both
annotations to its name and defaulted MTU, and no replacement removes both
annotations. -/
theorem c2_mtu_source_reelection (vc : VlanConfig) (cnGet : String → Option ClusterNetwork)
    (cn : ClusterNetwork) (vcs : List VlanConfig)
    (hcn : cnGet vc.spec.clusterNetwork = some cn)
    (hsrc : lookupGo cn.annotations KeyMTUSourceVlanConfig = vc.name) :
    OnVlanConfigRemove (some vc) cnGet vcs =
      (match specReplacementChoice vc.name (listVlanConfigsByCN vcs vc.spec.clusterNetwork) with
       | some cand =>
         RemoveResult.update { cn with annotations := setAnn (setAnn cn.annotations KeyUplinkMTU (toString (MTUDefaultTo (GetMTUFromVlanConfig (some cand))))) KeyMTUSourceVlanConfig cand.name }
       | none =>
         RemoveResult.update { cn with annotations := eraseKey (eraseKey cn.annotations KeyMTUSourceVlanConfig) KeyUplinkMTU }) := by
  have hbeq : (lookupGo cn.annotations KeyMTUSourceVlanConfig == vc.name) = true := by
    simp [hsrc]
  simp only [OnVlanConfigRemove, hcn, hbeq, Bool.not_true]
  rw [if_neg (by simp)]
  rw [findCandidate_none]

/-- Concrete removed VlanConfig for the C2 witness (the recorded source). -/
def c2vcB : VlanConfig :=
  { name := "B", annotations := [], labels := [(KeyClusterNetworkLabel, "net1")],
    deletionTimestamp := true,
    spec := { clusterNetwork := "net1", uplink := { linkAttrs := some { MTU := 9000 } } } }

/-- Remaining zero-MTU candidate C. -/
def c2vcC : VlanConfig :=
  { name := "C", annotations := [], labels := [(KeyClusterNetworkLabel, "net1")],
    deletionTimestamp := false,
    spec := { clusterNetwork := "net1", uplink := { linkAttrs := none } } }

/-- Remaining zero-MTU candidate D. -/
def c2vcD : VlanConfig :=
  { name := "D", annotations := [], labels := [(KeyClusterNetworkLabel, "net1")],
    deletionTimestamp := false,
    spec := { clusterNetwork := "net1", uplink := { linkAttrs := none } } }

/-- Remaining nonzero-MTU candidate E. -/
def c2vcE : VlanConfig :=
  { name := "E", annotations := [], labels := [(KeyClusterNetworkLabel, "net1")],
    deletionTimestamp := false,
    spec := { clusterNetwork := "net1", uplink := { linkAttrs := some { MTU := 9000 } } } }

/-- Cluster network for the C2 witness, with B recorded as source. -/
def c2cn : ClusterNetwork :=
  { name := "net1", annotations := [(KeyUplinkMTU, "9000"), (KeyMTUSourceVlanConfig, "B")],
    ready := some true }

/-- C2 witness: with remaining candidates C(MTU=0), D(MTU=0), E(MTU=9000)
the election picks E, rewriting both annotations to E and 9000. -/
theorem c2_mtu_source_reelection_witness :
    OnVlanConfigRemove (some c2vcB) (fun n => if n == "net1" then some c2cn else none)
        [c2vcC, c2vcD, c2vcE] =
      RemoveResult.update { c2cn with annotations := setAnn (setAnn c2cn.annotations KeyUplinkMTU "9000") KeyMTUSourceVlanConfig "E" } := by
  have h := c2_mtu_source_reelection c2vcB (fun n => if n == "net1" then some c2cn else none)
    c2cn [c2vcC, c2vcD, c2vcE] (by decide) (by decide)
  exact h.trans (by decide)

/-- C3: on a status-object removal event the aggregator is a no-op when
more than one status object of the cluster network remains; errors without
writing when exactly one remains and it is not the removed object; and
otherwise (the removed object is the only one left, or none are left) sets
the cluster network's Ready condition to false, skipping the write when it
is already false. -/
theorem c3_unready_aggregation (vs : VlanStatus) (vss : List VlanStatus)
    (cnGet : String → Option ClusterNetwork) (cn : ClusterNetwork) (w : VlanStatus) :
    ((listVlanStatusesByCN vss vs.status.clusterNetwork).length > 1 →
      SetClusterNetworkUnready (some vs) vss cnGet = Except.ok CnWrite.noop)
    ∧ (listVlanStatusesByCN vss vs.status.clusterNetwork = [w] → w.name ≠ vs.name →
        ∃ e, SetClusterNetworkUnready (some vs) vss cnGet = Except.error e)
    ∧ (cnGet vs.status.clusterNetwork = some cn →
        (listVlanStatusesByCN vss vs.status.clusterNetwork = [] ∨
          (listVlanStatusesByCN vss vs.status.clusterNetwork = [w] ∧ w.name = vs.name)) →
        SetClusterNetworkUnready (some vs) vss cnGet =
          (if cn.ready == some false then Except.ok CnWrite.noop
           else Except.ok (CnWrite.write { cn with ready := some false }))) := by
  refine ⟨?_, ?_, ?_⟩
  · intro hlen
    simp only [SetClusterNetworkUnready, setClusterNetworkUnready]
    rw [if_pos hlen]
  · intro hl hw
    have hbeq : (w.name == vs.name) = false := by
      simp [hw]
    simp only [SetClusterNetworkUnready, setClusterNetworkUnready, hl]
    simp [hbeq]
  · intro hcn hdisj
    rcases hdisj with hl | ⟨hl, hw⟩
    · simp only [SetClusterNetworkUnready, setClusterNetworkUnready, hl,
        setClusterNetworkUnreadyWrite, hcn]
      cases hr : (cn.ready == some false) <;> simp
    · have hbeq : (w.name == vs.name) = true := by
        simp [hw]
      simp only [SetClusterNetworkUnready, setClusterNetworkUnready, hl,
        setClusterNetworkUnreadyWrite, hcn]
      cases hr : (cn.ready == some false) <;> simp [hbeq]

/-- A concrete status object for the C3 witness. -/
def c3status (n cnName : String) : VlanStatus :=
  { name := n, labels := [(KeyClusterNetworkLabel, cnName)], deletionTimestamp := false,
    ready := some true, message := "",
    status := { clusterNetwork := cnName, vlanConfig := "vc", node := "node" } }

/-- A concrete cluster network (Ready) for the C3 witness. -/
def c3cn : ClusterNetwork :=
  { name := "net2", annotations := [], ready := some true }

/-- C3 witness: two remaining statuses give a no-op; one remaining foreign
status gives an error; the removed status being the only one left flips
Ready to false. -/
theorem c3_unready_aggregation_witness :
    SetClusterNetworkUnready (some (c3status "s1" "net2"))
        [c3status "a" "net2", c3status "b" "net2"] (fun _ => some c3cn) = Except.ok CnWrite.noop
    ∧ (∃ e, SetClusterNetworkUnready (some (c3status "s1" "net2"))
        [c3status "other" "net2"] (fun _ => some c3cn) = Except.error e)
    ∧ SetClusterNetworkUnready (some (c3status "s1" "net2"))
        [c3status "s1" "net2"] (fun _ => some c3cn) =
          Except.ok (CnWrite.write { c3cn with ready := some false }) := by
  refine ⟨?_, ?_, ?_⟩
  · exact (c3_unready_aggregation (c3status "s1" "net2")
      [c3status "a" "net2", c3status "b" "net2"] (fun _ => some c3cn) c3cn
      (c3status "a" "net2")).1 (by decide)
  · exact (c3_unready_aggregation (c3status "s1" "net2") [c3status "other" "net2"]
      (fun _ => some c3cn) c3cn (c3status "other" "net2")).2.1 (by decide) (by decide)
  · have h := (c3_unready_aggregation (c3status "s1" "net2") [c3status "s1" "net2"]
      (fun _ => some c3cn) c3cn (c3status "s1" "net2")).2.2 (by decide)
      (Or.inr ⟨by decide, rfl⟩)
    exact h.trans (by rfl)

/-- Node for the C4 counterexample: the availability label for cluster
network "mgmt" is "true" while the pointer label names "other". -/
def c4node : Node :=
  { labels := some [(GroupName ++ "/mgmt", ValueTrue), (KeyVlanConfigLabel, "other")] }

/-- VlanConfig "vc1" on cluster network "mgmt" for the C4 counterexample. -/
def c4vc : VlanConfig :=
  { name := "vc1", annotations := [], labels := [], deletionTimestamp := false,
    spec := { clusterNetwork := "mgmt", uplink := { linkAttrs := none } } }

/-- C4 counterexample: the pointer label names a different VlanConfig
("other", not "vc1"), yet teardown of "vc1" still writes the node, deleting
both labels, because the availability label alone being "true" triggers the
write. The claimed frame property is false at this input. -/
theorem c4_remove_node_label_cex :
    lookupGoOpt c4node.labels KeyVlanConfigLabel = "other"
    ∧ c4vc.name = "vc1"
    ∧ ("other" : String) ≠ "vc1"
    ∧ removeNodeLabel c4node c4vc ≠ none
    ∧ removeNodeLabel c4node c4vc ≠ some c4node := by
  exact ⟨by decide, by decide, by decide, by decide, by decide⟩

/-- C4 (amended): the two labels are written (deleted) if and only if the
label map is present and either the per-cluster-network availability label
is currently "true" or the pointer label is currently set to this
VlanConfig; when neither holds (in particular, when the pointer names a
different VlanConfig and the availability label is not "true"), both labels
are left unchanged. When the write happens it deletes both labels. -/
theorem c4_remove_node_label_amended (n : Node) (vc : VlanConfig)
    (lbls : List (String × String)) (hl : n.labels = some lbls) :
    (removeNodeLabel n vc = none ↔
      (lookupGo lbls (GroupName ++ "/" ++ vc.spec.clusterNetwork) ≠ ValueTrue ∧
       lookupGo lbls KeyVlanConfigLabel ≠ vc.name))
    ∧ (removeNodeLabel n vc ≠ none →
        removeNodeLabel n vc = some { n with labels := some (eraseKey (eraseKey lbls (GroupName ++ "/" ++ vc.spec.clusterNetwork)) KeyVlanConfigLabel) }) := by
  by_cases h1 : lookupGo lbls (GroupName ++ "/" ++ vc.spec.clusterNetwork) = ValueTrue
  · constructor
    · simp [removeNodeLabel, hl, h1]
    · intro _
      simp [removeNodeLabel, hl, h1]
  · by_cases h2 : lookupGo lbls KeyVlanConfigLabel = vc.name
    · constructor
      · simp [removeNodeLabel, hl, h1, h2]
      · intro _
        simp [removeNodeLabel, hl, h1, h2]
    · constructor
      · simp [removeNodeLabel, hl, h1, h2]
      · intro hne
        exfalso
        apply hne
        simp [removeNodeLabel, hl, h1, h2]

/-- Node for the C4 witness: neither label is set for this VlanConfig. -/
def c4nodeClean : Node :=
  { labels := some [(KeyVlanConfigLabel, "other")] }

/-- C4 witness: with the availability label absent and the pointer label
naming a different VlanConfig, teardown of "vc1" leaves the node labels
unchanged (no write). -/
theorem c4_remove_node_label_witness :
    removeNodeLabel c4nodeClean c4vc = none := by
  exact (c4_remove_node_label_amended c4nodeClean c4vc [(KeyVlanConfigLabel, "other")] rfl).1.mpr
    ⟨by decide, by decide⟩

/-- C5: on status removal for a (configuration, node) pair whose status
object exists, a nil teardown error deletes the status object outright; a
non-nil teardown error instead updates it in place to Unready carrying the
error message (no deletion); and a deletion happens only when the teardown
error is nil. -/
theorem c5_status_removal_policy (vs : VlanStatus) :
    deleteStatus (some vs) none = StatusEffect.deleteVS vs.name
    ∧ (∀ m, deleteStatus (some vs) (some m) =
        StatusEffect.updateVS { vs with ready := some false, message := m })
    ∧ (∀ g te nm, deleteStatus g te = StatusEffect.deleteVS nm → te = none) := by
  refine ⟨rfl, fun m => rfl, fun g te nm h => ?_⟩
  cases g with
  | none => cases h
  | some vs2 =>
    cases te with
    | none => rfl
    | some m => cases h

/-- Concrete status object for the C5 witness. -/
def c5vs : VlanStatus :=
  { name := "s1", labels := [], deletionTimestamp := false, ready := some true,
    message := "",
    status := { clusterNetwork := "net", vlanConfig := "vc", node := "node" } }

/-- C5 witness: a nil teardown error deletes status "s1"; the error "boom"
instead updates it to Unready with that message; and the observed deletion
implies the teardown error was nil. -/
theorem c5_status_removal_policy_witness :
    deleteStatus (some c5vs) none = StatusEffect.deleteVS "s1"
    ∧ deleteStatus (some c5vs) (some "boom") =
        StatusEffect.updateVS { c5vs with ready := some false, message := "boom" }
    ∧ (none : Option String) = none := by
  refine ⟨(c5_status_removal_policy c5vs).1, (c5_status_removal_policy c5vs).2.1 "boom",
    (c5_status_removal_policy c5vs).2.2 (some c5vs) none "s1" (by decide)⟩

/-- C6: when the matched-node annotation is absent or empty, or when it
fails to decode as a JSON list of node names, `MatchNode` answers
`(false, "")` with no error, for every decoder behaviour and handler. -/
theorem c6_matchnode_malformed (unmarshal : String → Option (List String))
    (h : AgentHandler) (vc : VlanConfig)
    (hm : lookupGo vc.annotations KeyMatchedNodes = "" ∨
      unmarshal (lookupGo vc.annotations KeyMatchedNodes) = none) :
    MatchNode unmarshal h vc = Except.ok (false, "") := by
  rcases hm with hm | hm
  · simp [MatchNode, hm]
  · by_cases he : lookupGo vc.annotations KeyMatchedNodes = ""
    · simp [MatchNode, he]
    · simp [MatchNode, he, hm]

/-- Concrete handler for the C6/C7 witnesses. -/
def c6handler : AgentHandler :=
  { nodeName := "node1", nodeGet := fun _ => Except.error "no node" }

/-- Concrete VlanConfig carrying a malformed matched-node annotation. -/
def c6vc : VlanConfig :=
  { name := "vcA", annotations := [(KeyMatchedNodes, "not-json")], labels := [],
    deletionTimestamp := false,
    spec := { clusterNetwork := "mgmt", uplink := { linkAttrs := none } } }

/-- C6 witness: a decoder rejecting the malformed annotation "not-json"
yields `(false, "")` and no error. -/
theorem c6_matchnode_malformed_witness :
    MatchNode (fun _ => none) c6handler c6vc = Except.ok (false, "") := by
  exact c6_matchnode_malformed (fun _ => none) c6handler c6vc (Or.inr rfl)

/-- C7: on a change event for a non-deleted VlanConfig where ownership
resolution answers matches with a non-empty owner different from this
VlanConfig's name, the handler makes no device setup or teardown call and
returns no error. -/
theorem c7_onchange_race_guard (unmarshal : String → Option (List String))
    (h : AgentHandler) (eff : AgentEffects) (vc : VlanConfig) (v : String)
    (hts : vc.deletionTimestamp = false)
    (hm : MatchNode unmarshal h vc = Except.ok (true, v))
    (hv1 : v ≠ "") (hv2 : v ≠ vc.name) :
    OnChange unmarshal h eff (some vc) = (Except.ok (), []) := by
  simp only [OnChange, hts, hm]
  simp [hv1, hv2]

/-- Node object owned by "X" for the C7 witness. -/
def c7node : Node :=
  { labels := some [(KeyVlanConfigLabel, "X")] }

/-- Handler for the C7 witness: node1 is the local node, owned by "X". -/
def c7handler : AgentHandler :=
  { nodeName := "node1", nodeGet := fun _ => Except.ok c7node }

/-- VlanConfig "Y" matching node1 for the C7 witness. -/
def c7vcY : VlanConfig :=
  { name := "Y", annotations := [(KeyMatchedNodes, "[node1]")], labels := [],
    deletionTimestamp := false,
    spec := { clusterNetwork := "mgmt", uplink := { linkAttrs := none } } }

/-- Effects for the C7 witness (both calls would succeed if made). -/
def c7eff : AgentEffects :=
  { setupVLAN := fun _ => none, removeVLAN := fun _ => none }

/-- Decoder for the C7 witness, decoding the one annotation in play. -/
def c7unmarshal : String → Option (List String) :=
  fun s => if s == "[node1]" then some ["node1"] else none

/-- C7 witness: VlanConfig Y matches node1 whose owner label is already
"X"; the handler takes no device action and returns no error. -/
theorem c7_onchange_race_guard_witness :
    OnChange c7unmarshal c7handler c7eff (some c7vcY) = (Except.ok (), []) := by
  exact c7_onchange_race_guard c7unmarshal c7handler c7eff c7vcY "X" rfl (by rfl)
    (by decide) (by decide)

/-- One CRC bit step stays within 32 bits. -/
lemma crc32Step_lt (c : Nat) (h : c < 2 ^ 32) : crc32Step c < 2 ^ 32 := by
  have h1 : c >>> 1 < 2 ^ 32 :=
    lt_of_le_of_lt (by rw [Nat.shiftRight_eq_div_pow]; exact Nat.div_le_self c (2 ^ 1)) h
  unfold crc32Step
  split
  · exact Nat.bitwise_lt h1 (by norm_num [crc32Poly])
  · exact h1

/-- Folding a byte into the CRC stays within 32 bits. -/
lemma crc32Byte_lt (crc : Nat) (b : GoByte) (h : crc < 2 ^ 32) : crc32Byte crc b < 2 ^ 32 := by
  have h0 : crc ^^^ b.val < 2 ^ 32 :=
    Nat.bitwise_lt h (lt_trans b.isLt (by norm_num))
  unfold crc32Byte
  exact crc32Step_lt _ (crc32Step_lt _ (crc32Step_lt _ (crc32Step_lt _
    (crc32Step_lt _ (crc32Step_lt _ (crc32Step_lt _ (crc32Step_lt _ h0)))))))

/-- The CRC fold stays within 32 bits. -/
lemma crc32_foldl_lt (data : List GoByte) :
    ∀ acc, acc < 2 ^ 32 → data.foldl crc32Byte acc < 2 ^ 32 := by
  induction data with
  | nil => exact fun acc h => h
  | cons b rest ih => exact fun acc h => ih _ (crc32Byte_lt acc b h)

/-- The digest is a 32-bit value, so `%08x` prints exactly eight digits. -/
lemma crc32_lt (data : List GoByte) : crc32ChecksumIEEE data < 2 ^ 32 := by
  unfold crc32ChecksumIEEE
  exact Nat.bitwise_lt (crc32_foldl_lt data 0xFFFFFFFF (by norm_num)) (by norm_num)

/-- `hex8` always prints eight digits. -/
lemma hex8_length (n : Nat) : (hex8 n).length = 8 := rfl

/-- C8: the derived status name is a deterministic function of the
(configuration, node) pair, never exceeds 63 bytes, and always ends in a
dash followed by the full 8-hex-digit CRC-32 of the untruncated
`<configuration>-<node>` string (the digest being a 32-bit value, the eight
digits are the complete `%08x` rendering). -/
theorem c8_status_name_shape (vcName nodeName : List GoByte) :
    statusName vcName nodeName = statusName vcName nodeName
    ∧ (statusName vcName nodeName).length ≤ 63
    ∧ (hex8 (crc32ChecksumIEEE (vcName ++ dashByte :: nodeName))).length = 8
    ∧ crc32ChecksumIEEE (vcName ++ dashByte :: nodeName) < 2 ^ 32
    ∧ ∃ p, statusName vcName nodeName =
        p ++ dashByte :: hex8 (crc32ChecksumIEEE (vcName ++ dashByte :: nodeName)) := by
  refine ⟨rfl, ?_, rfl, crc32_lt _, ?_⟩
  · unfold statusName
    have hname : (vcName ++ dashByte :: nodeName).length = vcName.length + nodeName.length + 1 := by
      simp
      omega
    simp only [hex8_length, List.length_append, List.length_cons]
    split
    · simp only [List.length_take]
      omega
    · omega
  · unfold statusName
    exact ⟨_, rfl⟩

/-- C9: on a change event for a non-nil status object without a deletion
marker, the aggregator sets the owning cluster network's Ready condition to
true, skipping the write only when it is already true — and the outcome is
the same whatever Ready condition and message the status object itself
reports. -/
theorem c9_ready_regardless (vs : VlanStatus) (cnGet : String → Option ClusterNetwork)
    (cn : ClusterNetwork) (hts : vs.deletionTimestamp = false)
    (hcn : cnGet vs.status.clusterNetwork = some cn) :
    SetClusterNetworkReady (some vs) cnGet =
      (if cn.ready == some true then Except.ok CnWrite.noop
       else Except.ok (CnWrite.write { cn with ready := some true }))
    ∧ (∀ r m, SetClusterNetworkReady (some { vs with ready := r, message := m }) cnGet =
        SetClusterNetworkReady (some vs) cnGet) := by
  constructor
  · simp only [SetClusterNetworkReady, hts, setClusterNetworkReady, hcn]
    cases hr : (cn.ready == some true) <;> simp [hr]
  · intro r m
    simp only [SetClusterNetworkReady, setClusterNetworkReady]

/-- Unready status object for the C9 witness. -/
def c9vs : VlanStatus :=
  { name := "s9", labels := [(KeyClusterNetworkLabel, "net9")], deletionTimestamp := false,
    ready := some false, message := "setup failed",
    status := { clusterNetwork := "net9", vlanConfig := "vc9", node := "node9" } }

/-- Not-yet-Ready cluster network for the C9 witness. -/
def c9cn : ClusterNetwork :=
  { name := "net9", annotations := [], ready := none }

/-- C9 witness: an upsert of an Unready/Failed status object still marks
its cluster network Ready. -/
theorem c9_ready_regardless_witness :
    SetClusterNetworkReady (some c9vs) (fun _ => some c9cn) =
      Except.ok (CnWrite.write { c9cn with ready := some true }) := by
  have h := (c9_ready_regardless c9vs (fun _ => some c9cn) c9cn rfl rfl).1
  exact h.trans (by rfl)

/-- C10: a VlanConfig declaring a nonzero MTU outside [576, 9000] is
treated exactly like one with no MTU: the effective MTU is the default
1500, and both the update path (when the annotation differs) and the
create path write "1500" as the `uplink-mtu` value; the handler has no
rejection path for an invalid declared MTU. -/
theorem c10_invalid_mtu_defaults (vc : VlanConfig) (cnGet : String → Option ClusterNetwork)
    (cn : ClusterNetwork)
    (hnz : GetMTUFromVlanConfig (some vc) ≠ 0)
    (hout : ¬(MinMTU ≤ GetMTUFromVlanConfig (some vc) ∧ GetMTUFromVlanConfig (some vc) ≤ MaxMTU))
    (hts : vc.deletionTimestamp = false) :
    effectiveMTU vc = DefaultMTU
    ∧ (cnGet vc.spec.clusterNetwork = none →
        EnsureClusterNetwork (some vc) cnGet =
          EnsureResult.create { name := vc.spec.clusterNetwork, annotations := [(KeyUplinkMTU, "1500"), (KeyMTUSourceVlanConfig, vc.name)], ready := none })
    ∧ (cnGet vc.spec.clusterNetwork = some cn →
        lookupGo cn.annotations KeyUplinkMTU ≠ "1500" →
        EnsureClusterNetwork (some vc) cnGet =
          EnsureResult.update { cn with annotations := setAnn (setAnn cn.annotations KeyUplinkMTU "1500") KeyMTUSourceVlanConfig vc.name }) := by
  have hval : IsValidMTU (GetMTUFromVlanConfig (some vc)) = false := by
    cases h : IsValidMTU (GetMTUFromVlanConfig (some vc)) with
    | false => rfl
    | true =>
      exfalso
      simp only [IsValidMTU, Bool.or_eq_true, Bool.and_eq_true, beq_iff_eq,
        decide_eq_true_eq, ge_iff_le] at h
      rcases h with h | h
      · exact hnz h
      · exact hout ⟨h.1, h.2⟩
  have heff : effectiveMTU vc = DefaultMTU := by
    simp [effectiveMTU, hval]
  have htarget : toString (effectiveMTU vc) = "1500" := by
    rw [heff]
    rfl
  have hmain : EnsureClusterNetwork (some vc) cnGet =
      ensureClusterNetwork (cnGet vc.spec.clusterNetwork) vc := by
    simp [EnsureClusterNetwork, hts]
  refine ⟨heff, fun hn => ?_, fun hsome hne => ?_⟩
  · rw [hmain, hn]
    simp [ensureClusterNetwork, htarget]
  · have hbeq : (lookupGo cn.annotations KeyUplinkMTU == toString (effectiveMTU vc)) = false := by
      rw [htarget]
      simp [hne]
    rw [hmain, hsome]
    simp only [ensureClusterNetwork, hbeq, htarget]
    simp [hne]

/-- VlanConfig declaring the invalid MTU 100 for the C10 witness. -/
def c10vc : VlanConfig :=
  { name := "vc10", annotations := [], labels := [], deletionTimestamp := false,
    spec := { clusterNetwork := "mgmt", uplink := { linkAttrs := some { MTU := 100 } } } }

/-- Existing cluster network annotated with "9000" for the C10 witness. -/
def c10cn : ClusterNetwork :=
  { name := "mgmt", annotations := [(KeyUplinkMTU, "9000")], ready := none }

/-- C10 witness: with declared MTU 100 the create path writes "1500", and
so does the update path on a cluster network currently annotated "9000". -/
theorem c10_invalid_mtu_defaults_witness :
    EnsureClusterNetwork (some c10vc) (fun _ => none) =
      EnsureResult.create { name := "mgmt", annotations := [(KeyUplinkMTU, "1500"), (KeyMTUSourceVlanConfig, "vc10")], ready := none }
    ∧ EnsureClusterNetwork (some c10vc) (fun _ => some c10cn) =
      EnsureResult.update { c10cn with annotations := setAnn (setAnn c10cn.annotations KeyUplinkMTU "1500") KeyMTUSourceVlanConfig "vc10" } := by
  constructor
  · have h := (c10_invalid_mtu_defaults c10vc (fun _ => none) c10cn (by decide) (by decide)
      rfl).2.1 rfl
    exact h.trans (by decide)
  · have h := (c10_invalid_mtu_defaults c10vc (fun _ => some c10cn) c10cn (by decide) (by decide)
      rfl).2.2 rfl (by decide)
    exact h.trans (by decide)
